import Mathlib

/-!
Shallow embedding of the online-boutique checkout core: the Money arithmetic
library, the payment-card validation, and the PlaceOrder orchestration of the
CheckoutService, translated from the Go sources.  Machine integers (Go `int64`
for `Money.Units`, `int32` for `Money.Nanos`) are modelled as `Int` together
with explicit two's-complement wrapping at the arithmetic operations where an
overflow is possible.
-/

namespace Boutique

/-- proto message `Money`: `currency_code` (string), `units` (int64),
`nanos` (int32). -/
structure Money where
  currencyCode : String
  units : Int
  nanos : Int
deriving DecidableEq, Repr

/-- constant `nanosMin` from the checkout service. -/
def nanosMin : Int := -999999999

/-- constant `nanosMax` from the checkout service. -/
def nanosMax : Int := 999999999

/-- constant `nanosMod` from the checkout service. -/
def nanosMod : Int := 1000000000

/-- Two's-complement wrap-around of Go `int64` addition and subtraction. -/
def wrap64 (x : Int) : Int := (x + 9223372036854775808) % 18446744073709551616 - 9223372036854775808

/-- Two's-complement wrap-around of Go `int32` addition and subtraction. -/
def wrap32 (x : Int) : Int := (x + 2147483648) % 4294967296 - 2147483648

/-- The two sentinel errors of the money library:
`ErrInvalidValue` and `ErrMismatchingCurrency`. -/
inductive MoneyError where
  | invalidValue
  | mismatchingCurrency
deriving DecidableEq, Repr

/-- Go `signMatches`: `m.GetNanos() == 0 || m.GetUnits() == 0 ||
(m.GetNanos() < 0) == (m.GetUnits() < 0)`. -/
def signMatches (m : Money) : Prop :=
  m.nanos = 0 ∨ m.units = 0 ∨ ((m.nanos < 0) ↔ (m.units < 0))

instance (m : Money) : Decidable (signMatches m) := by
  unfold signMatches; infer_instance

/-- Go `validNanos`: `nanosMin <= nanos && nanos <= nanosMax`. -/
def validNanos (nanos : Int) : Prop := nanosMin ≤ nanos ∧ nanos ≤ nanosMax

instance (n : Int) : Decidable (validNanos n) := by
  unfold validNanos; infer_instance

/-- Go `IsValid`: sign match and nanos range. -/
def IsValid (m : Money) : Prop := signMatches m ∧ validNanos m.nanos

instance (m : Money) : Decidable (IsValid m) := by
  unfold IsValid; infer_instance

/-- Go `IsZero`. -/
def IsZero (m : Money) : Prop := m.units = 0 ∧ m.nanos = 0

instance (m : Money) : Decidable (IsZero m) := by
  unfold IsZero; infer_instance

/-- Go `IsPositive`: `IsValid(m) && m.GetUnits() > 0 || (m.GetUnits() == 0 &&
m.GetNanos() > 0)` — `&&` binds tighter than `||` in Go, exactly as `∧` over
`∨` here. -/
def IsPositive (m : Money) : Prop :=
  IsValid m ∧ m.units > 0 ∨ (m.units = 0 ∧ m.nanos > 0)

instance (m : Money) : Decidable (IsPositive m) := by
  unfold IsPositive; infer_instance

/-- Go `IsNegative`: `IsValid(m) && m.GetUnits() < 0 || (m.GetUnits() == 0 &&
m.GetNanos() < 0)`. -/
def IsNegative (m : Money) : Prop :=
  IsValid m ∧ m.units < 0 ∨ (m.units = 0 ∧ m.nanos < 0)

instance (m : Money) : Decidable (IsNegative m) := by
  unfold IsNegative; infer_instance

/-- Go `AreSameCurrency`. -/
def AreSameCurrency (l r : Money) : Prop :=
  l.currencyCode = r.currencyCode ∧ l.currencyCode ≠ ""

/-- Go `AreEquals`. -/
def AreEquals (l r : Money) : Prop :=
  l.currencyCode = r.currencyCode ∧ l.units = r.units ∧ l.nanos = r.nanos

/-- Go `Negate` (negation of int64/int32 fields; the extreme values that would
overflow are unreachable for any argument in nanos range, and units negation
wraps). -/
def Negate (m : Money) : Money :=
  { units := wrap64 (-m.units), nanos := wrap32 (-m.nanos), currencyCode := m.currencyCode }

/-- The re-normalization step inside Go `Sum`, applied to the raw component
sums `units` and `nanos` (already wrapped to int64/int32).  The int32
subtraction `nanos -= nanosMod` can overflow (when `units = 0` and
`nanos ≤ -1147483649`), hence the `wrap32`; `units - 1` and `units + 1` cannot
overflow in their branches (`units > 0`, resp. `units ≤ 0`), and
`units + nanos / nanosMod` can, hence the `wrap64`.  Go `/` and `%` truncate
toward zero: `Int.tdiv` / `Int.tmod`. -/
def sumNormalize (code : String) (units nanos : Int) : Money :=
  if (units = 0 ∧ nanos = 0) ∨ (units > 0 ∧ nanos ≥ 0) ∨ (units < 0 ∧ nanos ≤ 0) then
    { currencyCode := code,
      units := wrap64 (units + Int.tdiv nanos nanosMod),
      nanos := Int.tmod nanos nanosMod }
  else if units > 0 then
    { currencyCode := code, units := units - 1, nanos := wrap32 (nanos + nanosMod) }
  else
    { currencyCode := code, units := units + 1, nanos := wrap32 (nanos - nanosMod) }

/-- Go `Sum`: validity check, then currency check, then raw component sums and
re-normalization.  The raw int32 nanos sum of two valid values cannot overflow
(each summand is within ±999999999), the raw int64 units sum can. -/
def Sum (l r : Money) : Except MoneyError Money :=
  if ¬ IsValid l ∨ ¬ IsValid r then
    Except.error MoneyError.invalidValue
  else if l.currencyCode ≠ r.currencyCode then
    Except.error MoneyError.mismatchingCurrency
  else
    Except.ok (sumNormalize l.currencyCode (wrap64 (l.units + r.units)) (l.nanos + r.nanos))

instance {ε α : Type} [DecidableEq ε] [DecidableEq α] : DecidableEq (Except ε α)
  | Except.error a, Except.error b =>
    if h : a = b then isTrue (by rw [h]) else isFalse (by simp [h])
  | Except.error _, Except.ok _ => isFalse (by simp)
  | Except.ok _, Except.error _ => isFalse (by simp)
  | Except.ok a, Except.ok b =>
    if h : a = b then isTrue (by rw [h]) else isFalse (by simp [h])

/-- The exact value of a Money in nanos: `units * 10^9 + nanos`. -/
def moneyValue (m : Money) : Int := m.units * nanosMod + m.nanos

/-- The loop `for n > 1 { out = Must(Sum(out, m)); n-- }` of Go `MultiplySlow`.
Go `Must` panics when `Sum` reports an error; the panic is modelled as the
error escaping through the `Except`. -/
def multiplyLoop (m : Money) : Money → Nat → Except MoneyError Money
  | out, 0 => Except.ok out
  | out, 1 => Except.ok out
  | out, n + 2 =>
    match Sum out m with
    | Except.error e => Except.error e
    | Except.ok next => multiplyLoop m next (n + 1)

/-- Go `MultiplySlow`: starts from a field-by-field copy of `m` and adds `m`
to it `n - 1` times.  The multiplier is Go `uint32`, modelled as `Nat`. -/
def MultiplySlow (m : Money) (n : Nat) : Except MoneyError Money :=
  multiplyLoop m { units := m.units, nanos := m.nanos, currencyCode := m.currencyCode } n

/-! ## The checkout orchestration (`PlaceOrder` and its helpers) -/

/-- proto message `Address`. -/
structure Address where
  streetAddress : String
  city : String
  state : String
  country : String
  zipCode : Int
deriving DecidableEq, Repr

/-- proto message `CartItem` (`quantity` is int32). -/
structure CartItem where
  productId : String
  quantity : Int
deriving DecidableEq, Repr

/-- proto message `OrderItem`. -/
structure OrderItem where
  item : CartItem
  cost : Money
deriving DecidableEq, Repr

/-- proto message `Product`, restricted to the field the checkout service
reads (`price_usd`). -/
structure Product where
  id : String
  priceUsd : Money
deriving DecidableEq, Repr

/-- proto message `CreditCardInfo`. -/
structure CreditCardInfo where
  creditCardNumber : String
  creditCardCvv : Int
  creditCardExpirationYear : Int
  creditCardExpirationMonth : Int
deriving DecidableEq, Repr

/-- proto message `OrderResult`. -/
structure OrderResult where
  orderId : String
  shippingTrackingId : String
  shippingCost : Money
  shippingAddress : Address
  items : List OrderItem
deriving DecidableEq, Repr

/-- proto message `PlaceOrderRequest`. -/
structure PlaceOrderRequest where
  userId : String
  userCurrency : String
  address : Address
  email : String
  creditCard : CreditCardInfo
deriving DecidableEq, Repr

/-- proto message `PlaceOrderResponse`. -/
structure PlaceOrderResponse where
  order : OrderResult
deriving DecidableEq, Repr

/-- One outgoing RPC of the checkout service, recorded in the order the
service issues them. -/
inductive Call where
  | getCart (userId : String)
  | getProduct (productId : String)
  | convert (source : Money) (toCode : String)
  | getQuote (address : Address) (items : List CartItem)
  | charge (amount : Money) (card : CreditCardInfo)
  | shipOrder (address : Address) (items : List CartItem)
  | emptyCart (userId : String)
  | sendOrderConfirmation (email : String)
deriving DecidableEq, Repr

/-- The behaviour of the five collaborator services during one `PlaceOrder`
invocation, plus the `uuid.NewUUID` order-id source.  Each field gives the
response a call with those arguments would receive. -/
structure Env where
  newOrderId : Except String String
  getCart : String → Except String (List CartItem)
  getProduct : String → Except String Product
  convert : Money → String → Except String Money
  getQuote : Address → List CartItem → Except String Money
  charge : Money → CreditCardInfo → Except String String
  shipOrder : Address → List CartItem → Except String String
  emptyCart : String → Except String Unit
  sendOrderConfirmation : String → OrderResult → Except String Unit

/-- Go `getUserCart`: one Cart.GetCart RPC, error wrapped. -/
def getUserCartM (env : Env) (userId : String) :
    List Call × Except String (List CartItem) :=
  ([Call.getCart userId],
    match env.getCart userId with
    | Except.error e => Except.error ("failed to get user cart during checkout: " ++ e)
    | Except.ok items => Except.ok items)

/-- Go `convertCurrency` on the checkout service: one Currency.Convert RPC,
error wrapped. -/
def convertCurrencyM (env : Env) (money : Money) (toCurrency : String) :
    List Call × Except String Money :=
  ([Call.convert money toCurrency],
    match env.convert money toCurrency with
    | Except.error e => Except.error ("failed to convert currency: " ++ e)
    | Except.ok result => Except.ok result)

/-- Go `quoteShipping`: one Shipping.GetQuote RPC, error wrapped; returns the
quote's USD cost. -/
def quoteShippingM (env : Env) (address : Address) (items : List CartItem) :
    List Call × Except String Money :=
  ([Call.getQuote address items],
    match env.getQuote address items with
    | Except.error e => Except.error ("failed to get shipping quote: " ++ e)
    | Except.ok costUsd => Except.ok costUsd)

/-- Go `prepOrderItems`: for each cart item in order, a Catalog.GetProduct
RPC then a currency conversion of its USD price; the first failure aborts. -/
def prepOrderItemsM (env : Env) : List CartItem → String →
    List Call × Except String (List OrderItem)
  | [], _ => ([], Except.ok [])
  | item :: rest, userCurrency =>
    match env.getProduct item.productId with
    | Except.error _ =>
      ([Call.getProduct item.productId],
        Except.error ("failed to get product #" ++ item.productId))
    | Except.ok product =>
      let conv := convertCurrencyM env product.priceUsd userCurrency
      match conv.2 with
      | Except.error _ =>
        ([Call.getProduct item.productId] ++ conv.1,
          Except.error ("failed to convert price of " ++ item.productId ++
            " to " ++ userCurrency))
      | Except.ok price =>
        let restRes := prepOrderItemsM env rest userCurrency
        ([Call.getProduct item.productId] ++ conv.1 ++ restRes.1,
          match restRes.2 with
          | Except.error e => Except.error e
          | Except.ok out => Except.ok ({ item := item, cost := price } :: out))

/-- Go `orderPrep` struct. -/
structure OrderPrep where
  orderItems : List OrderItem
  cartItems : List CartItem
  shippingCostLocalized : Money
deriving DecidableEq, Repr

/-- Go `prepareOrderItemsAndShippingQuoteFromCart`: cart fetch, item pricing,
shipping quote, and localization of the shipping cost, in that order, each
failure aborting with a wrapped error. -/
def prepareOrderItemsAndShippingQuoteFromCart (env : Env)
    (userId userCurrency : String) (address : Address) :
    List Call × Except String OrderPrep :=
  let cart := getUserCartM env userId
  match cart.2 with
  | Except.error e => (cart.1, Except.error ("cart failure: " ++ e))
  | Except.ok cartItems =>
    let prep := prepOrderItemsM env cartItems userCurrency
    match prep.2 with
    | Except.error e =>
      (cart.1 ++ prep.1, Except.error ("failed to prepare order: " ++ e))
    | Except.ok orderItems =>
      let quote := quoteShippingM env address cartItems
      match quote.2 with
      | Except.error e =>
        (cart.1 ++ prep.1 ++ quote.1,
          Except.error ("shipping quote failure: " ++ e))
      | Except.ok shippingUSD =>
        let conv := convertCurrencyM env shippingUSD userCurrency
        match conv.2 with
        | Except.error e =>
          (cart.1 ++ prep.1 ++ quote.1 ++ conv.1,
            Except.error ("failed to convert shipping cost to currency: " ++ e))
        | Except.ok shippingPrice =>
          (cart.1 ++ prep.1 ++ quote.1 ++ conv.1,
            Except.ok ⟨orderItems, cartItems, shippingPrice⟩)

/-- Go's conversion `uint32(q)` of an int32 quantity. -/
def toUInt32 (q : Int) : Nat := (q % 4294967296).toNat

/-- The pricing loop of `PlaceOrder`:
`total += MultiplySlow(it.Cost, uint32(quantity))` for each order item, with
`Must` panics escaping as `MoneyError`s. -/
def addOrderItems : List OrderItem → Money → Except MoneyError Money
  | [], total => Except.ok total
  | it :: rest, total =>
    match MultiplySlow it.cost (toUInt32 it.item.quantity) with
    | Except.error e => Except.error e
    | Except.ok multPrice =>
      match Sum total multPrice with
      | Except.error e => Except.error e
      | Except.ok newTotal => addOrderItems rest newTotal

/-- The total computation of `PlaceOrder` (lines preceding the charge): start
from a zero `Money` in the user's currency, add the localized shipping cost,
then every priced item. -/
def computeTotal (userCurrency : String) (shippingCostLocalized : Money)
    (orderItems : List OrderItem) : Except MoneyError Money :=
  match Sum { currencyCode := userCurrency, units := 0, nanos := 0 }
      shippingCostLocalized with
  | Except.error e => Except.error e
  | Except.ok total => addOrderItems orderItems total

/-- Go `chargeCard`: one Payment.Charge RPC, error wrapped. -/
def chargeCardM (env : Env) (amount : Money) (paymentInfo : CreditCardInfo) :
    List Call × Except String String :=
  ([Call.charge amount paymentInfo],
    match env.charge amount paymentInfo with
    | Except.error e => Except.error ("could not charge the card: " ++ e)
    | Except.ok txId => Except.ok txId)

/-- Go `shipOrder`: one Shipping.ShipOrder RPC, error wrapped. -/
def shipOrderM (env : Env) (address : Address) (items : List CartItem) :
    List Call × Except String String :=
  ([Call.shipOrder address items],
    match env.shipOrder address items with
    | Except.error e => Except.error ("shipment failed: " ++ e)
    | Except.ok trackingId => Except.ok trackingId)

/-- Go `emptyUserCart`: one Cart.EmptyCart RPC, error wrapped. -/
def emptyUserCartM (env : Env) (userId : String) :
    List Call × Except String Unit :=
  ([Call.emptyCart userId],
    match env.emptyCart userId with
    | Except.error e =>
      Except.error ("failed to empty user cart during checkout: " ++ e)
    | Except.ok _ => Except.ok ())

/-- Go `sendOrderConfirmation`: one Email.SendOrderConfirmation RPC. -/
def sendOrderConfirmationM (env : Env) (email : String) (order : OrderResult) :
    List Call × Except String Unit :=
  ([Call.sendOrderConfirmation email], env.sendOrderConfirmation email order)

/-- The outcome of `PlaceOrder`: Go returns `(resp, error)` where fatal
failures carry a gRPC status tagged with the failing step, and a `Must`
failure in the total computation panics. -/
inductive OrderError where
  | internalUuid
  | prepFailure (msg : String)
  | paymentFailure (msg : String)
  | shippingFailure (msg : String)
  | moneyPanic (e : MoneyError)
deriving DecidableEq, Repr

/-- Go `PlaceOrder`, with its outgoing RPCs recorded in issue order:
uuid generation, cart/pricing/quote preparation, total computation,
charge, shipment, best-effort cart clearing (result discarded), order result
construction, and best-effort confirmation email (failure only logged). -/
def PlaceOrder (env : Env) (req : PlaceOrderRequest) :
    List Call × Except OrderError PlaceOrderResponse :=
  match env.newOrderId with
  | Except.error _ => ([], Except.error OrderError.internalUuid)
  | Except.ok orderId =>
    let pr := prepareOrderItemsAndShippingQuoteFromCart env req.userId
      req.userCurrency req.address
    match pr.2 with
    | Except.error e => (pr.1, Except.error (OrderError.prepFailure e))
    | Except.ok prep =>
      match computeTotal req.userCurrency prep.shippingCostLocalized
          prep.orderItems with
      | Except.error e => (pr.1, Except.error (OrderError.moneyPanic e))
      | Except.ok total =>
        let cc := chargeCardM env total req.creditCard
        match cc.2 with
        | Except.error e =>
          (pr.1 ++ cc.1,
            Except.error (OrderError.paymentFailure ("failed to charge card: " ++ e)))
        | Except.ok _txId =>
          let so := shipOrderM env req.address prep.cartItems
          match so.2 with
          | Except.error e =>
            (pr.1 ++ cc.1 ++ so.1,
              Except.error (OrderError.shippingFailure ("shipping error: " ++ e)))
          | Except.ok shippingTrackingId =>
            let ec := emptyUserCartM env req.userId
            let orderResult : OrderResult :=
              { orderId := orderId,
                shippingTrackingId := shippingTrackingId,
                shippingCost := prep.shippingCostLocalized,
                shippingAddress := req.address,
                items := prep.orderItems }
            let sc := sendOrderConfirmationM env req.email orderResult
            (pr.1 ++ cc.1 ++ so.1 ++ ec.1 ++ sc.1,
              Except.ok { order := orderResult })

/-- Discriminator for the two calls that must not happen before a successful
charge: `Shipping.ShipOrder` and `Cart.EmptyCart`. -/
def isShipOrEmpty : Call → Bool
  | Call.shipOrder _ _ => true
  | Call.emptyCart _ => true
  | _ => false

/-- A concrete collaborator behaviour (identity currency conversion, a fixed
8.99 USD quote, an empty cart) used to instantiate the orchestration
theorems; the payment service declines the charge. -/
def envChargeFail : Env :=
  { newOrderId := Except.ok ("order-1"),
    getCart := fun _ => Except.ok [],
    getProduct := fun _ => Except.error ("no product"),
    convert := fun m _ => Except.ok m,
    getQuote := fun _ _ => Except.ok ⟨("USD"), 8, 990000000⟩,
    charge := fun _ _ => Except.error ("card declined"),
    shipOrder := fun _ _ => Except.ok ("track-1"),
    emptyCart := fun _ => Except.ok (),
    sendOrderConfirmation := fun _ _ => Except.ok () }

/-- Collaborator behaviour where charge and shipment succeed but both
best-effort cleanup steps fail. -/
def envCleanupFail : Env :=
  { envChargeFail with
    newOrderId := Except.ok ("order-9"),
    charge := fun _ _ => Except.ok ("tx-9"),
    shipOrder := fun _ _ => Except.ok ("track-9"),
    emptyCart := fun _ => Except.error ("cart db down"),
    sendOrderConfirmation := fun _ _ => Except.error ("smtp down") }

/-- Collaborator behaviour with one cart item (quantity 2, price 10 USD). -/
def envOneItem : Env :=
  { envChargeFail with
    newOrderId := Except.ok ("order-7"),
    getCart := fun _ => Except.ok [⟨("P1"), 2⟩],
    getProduct := fun pid => Except.ok ⟨pid, ⟨("USD"), 10, 0⟩⟩,
    charge := fun _ _ => Except.ok ("tx-7") }

/-- A concrete order request in USD. -/
def reqUSD : PlaceOrderRequest :=
  { userId := ("u1"),
    userCurrency := ("USD"),
    address := ⟨("street"), ("city"), ("state"), ("country"), 98101⟩,
    email := ("a@b.c"),
    creditCard := ⟨("4111-1111-1111-1111"), 123, 2030, 1⟩ }

/-! ## Payment-card validation (`validateAndCharge` of the payment service) -/

/-- The three error values of the payment service: `InvalidCreditCardErr`,
`UnacceptedCreditCardErr`, `ExpiredCreditCardErr`. -/
inductive ChargeError where
  | invalidCreditCard
  | unacceptedCreditCard
  | expiredCreditCard
deriving DecidableEq, Repr

/-- Go `strings.ReplaceAll(number, "-", "")`: every hyphen removed. -/
def stripHyphens (s : String) : String :=
  String.mk (s.data.filter (fun c => c ≠ '-'))

/-- Day number (days since 1970-01-01) of a proleptic-Gregorian date whose
month is already normalized to 1..12; the day component may be any integer
offset from the first of the month (Go `time.Date` accepts day 0 as the day
before the first).  Standard civil-from-days arithmetic. -/
def daysFromCivil (y m d : Int) : Int :=
  let yy := if m ≤ 2 then y - 1 else y
  let era := yy.fdiv 400
  let yoe := yy - era * 400
  let mp := if m > 2 then m - 3 else m + 9
  let doy := (153 * mp + 2).fdiv 5 + (d - 1)
  let doe := yoe * 365 + yoe.fdiv 4 - yoe.fdiv 100 + doy
  era * 146097 + doe - 719468

/-- Go `time.Date`'s year/month normalization followed by the day count:
months outside 1..12 roll the year (floored division), and the day is an
arbitrary offset. -/
def goDateDays (y m d : Int) : Int :=
  let m0 := m - 1
  daysFromCivil (y + m0.fdiv 12) (m0.fmod 12 + 1) d

/-- Nanoseconds per day. -/
def nsPerDay : Int := 86400000000000

/-- The instant (in nanoseconds of the local clock since the epoch) of Go
`time.Date(year, month, 0, 0, 0, 0, 0, time.Local)` — midnight of the day
before the first of the given month. -/
def expiryInstant (year month : Int) : Int := goDateDays year month 0 * nsPerDay

/-- Go `validateAndCharge` of the payment service.  `nowNs` stands for
`time.Now()` (local-clock nanoseconds since the epoch) and `newTxId` for the
`uuid.New().String()` transaction id generated on success; `amount` is only
logged.  The accepted networks (first digit 4 = Visa, 5 = MasterCard) differ
only in the logged company name, so they are folded into one branch. -/
def validateAndCharge (amount : Money) (card : CreditCardInfo)
    (nowNs : Int) (newTxId : String) : Except ChargeError String :=
  if (stripHyphens card.creditCardNumber).length < 4 then
    Except.error ChargeError.invalidCreditCard
  else if (stripHyphens card.creditCardNumber).data.head? = some '4' ∨
      (stripHyphens card.creditCardNumber).data.head? = some '5' then
    if card.creditCardCvv < 100 ∨ 9999 < card.creditCardCvv then
      Except.error ChargeError.invalidCreditCard
    else if expiryInstant card.creditCardExpirationYear
        card.creditCardExpirationMonth < nowNs then
      Except.error ChargeError.expiredCreditCard
    else
      Except.ok newTxId
  else
    Except.error ChargeError.unacceptedCreditCard

example : goDateDays 1970 1 1 = 0 := by decide

example : goDateDays 2026 10 0 = goDateDays 2026 9 30 := by decide

example : validateAndCharge ⟨("USD"), 30, 0⟩
    ⟨("4111-1111-1111-1111"), 123, 2030, 1⟩
    (goDateDays 2026 10 11 * nsPerDay) ("tx-1") = Except.ok ("tx-1") := by decide

example : validateAndCharge ⟨("USD"), 30, 0⟩
    ⟨("6011-1111-1111-1111"), 123, 2030, 1⟩
    (goDateDays 2026 10 11 * nsPerDay) ("tx-1") =
    Except.error ChargeError.unacceptedCreditCard := by decide

example : validateAndCharge ⟨("USD"), 30, 0⟩ ⟨("12"), 123, 2030, 1⟩
    (goDateDays 2026 10 11 * nsPerDay) ("tx-1") =
    Except.error ChargeError.invalidCreditCard := by decide

example : validateAndCharge ⟨("USD"), 30, 0⟩
    ⟨("4111-1111-1111-1111"), 123, 2000, 1⟩
    (goDateDays 2026 10 11 * nsPerDay) ("tx-1") =
    Except.error ChargeError.expiredCreditCard := by decide

lemma wrap64_id {x : Int} (h1 : -9223372036854775808 ≤ x)
    (h2 : x ≤ 9223372036854775807) : wrap64 x = x := by
  unfold wrap64; omega

lemma wrap32_id {x : Int} (h1 : -2147483648 ≤ x)
    (h2 : x ≤ 2147483647) : wrap32 x = x := by
  unfold wrap32; omega

lemma neg_tmod_eq (a b : Int) : Int.tmod (-a) b = -(Int.tmod a b) := by
  rw [Int.tmod_def, Int.tmod_def, Int.neg_tdiv]; ring

lemma tdivmod_small (N : Int) (h1 : -1999999998 ≤ N) (h2 : N ≤ 1999999998) :
    1000000000 * Int.tdiv N 1000000000 + Int.tmod N 1000000000 = N ∧
    (0 ≤ N → 0 ≤ Int.tmod N 1000000000 ∧ Int.tmod N 1000000000 ≤ 999999999 ∧
      0 ≤ Int.tdiv N 1000000000 ∧ Int.tdiv N 1000000000 ≤ 1) ∧
    (N ≤ 0 → Int.tmod N 1000000000 ≤ 0 ∧ -999999999 ≤ Int.tmod N 1000000000 ∧
      -1 ≤ Int.tdiv N 1000000000 ∧ Int.tdiv N 1000000000 ≤ 0) := by
  have hpos : ∀ M : Int, 0 ≤ M →
      Int.tdiv M 1000000000 = M / 1000000000 ∧
      Int.tmod M 1000000000 = M % 1000000000 := by
    intro M h0
    exact ⟨Int.tdiv_eq_ediv h0 (by omega), Int.tmod_eq_emod h0 (by omega)⟩
  rcases le_or_lt 0 N with h | h
  · obtain ⟨hd, hm⟩ := hpos N h
    rw [hd, hm]; omega
  · obtain ⟨hd, hm⟩ := hpos (-N) (by omega)
    have hN : N = -(-N) := by ring
    rw [hN, Int.neg_tdiv, neg_tmod_eq, hd, hm]; omega

lemma isValid_elim {m : Money} (h : IsValid m) :
    (-999999999 ≤ m.nanos ∧ m.nanos ≤ 999999999) ∧
    (m.nanos = 0 ∨ m.units = 0 ∨ (m.nanos < 0 ∧ m.units < 0) ∨
      (0 < m.nanos ∧ 0 < m.units)) := by
  obtain ⟨hs, hn⟩ := h
  unfold signMatches at hs
  unfold validNanos nanosMin nanosMax at hn
  rcases hs with h | h | h
  · exact ⟨hn, Or.inl h⟩
  · exact ⟨hn, Or.inr (Or.inl h)⟩
  · refine ⟨hn, ?_⟩
    by_cases hneg : m.nanos < 0
    · exact Or.inr (Or.inr (Or.inl ⟨hneg, h.mp hneg⟩))
    · have := h.mpr; omega

lemma isValid_intro {m : Money}
    (hn : -999999999 ≤ m.nanos ∧ m.nanos ≤ 999999999)
    (hs : m.nanos = 0 ∨ m.units = 0 ∨ (m.nanos < 0 ∧ m.units < 0) ∨
      (0 < m.nanos ∧ 0 < m.units)) : IsValid m := by
  refine ⟨?_, ?_⟩
  · unfold signMatches
    rcases hs with h | h | h | h
    · exact Or.inl h
    · exact Or.inr (Or.inl h)
    · exact Or.inr (Or.inr (by omega))
    · exact Or.inr (Or.inr (by omega))
  · unfold validNanos nanosMin nanosMax; omega

lemma not_isValid_of_nanos_large {m : Money} (h : 999999999 < m.nanos) :
    ¬ IsValid m := by
  intro hv
  have := (isValid_elim hv).1
  omega

lemma valid_inj {x y : Money} (hx : IsValid x) (hy : IsValid y)
    (hc : x.currencyCode = y.currencyCode) (hv : moneyValue x = moneyValue y) :
    x = y := by
  have hex := isValid_elim hx
  have hey := isValid_elim hy
  unfold moneyValue nanosMod at hv
  cases x with
  | mk cx ux nx =>
    cases y with
    | mk cy uy ny =>
      simp only at hex hey hv hc
      simp only [Money.mk.injEq]
      refine ⟨hc, ?_, ?_⟩ <;> omega

lemma sumNormalize_spec (code : String) (U N : Int)
    (hU1 : -9223372036854775807 ≤ U) (hU2 : U ≤ 9223372036854775806)
    (hN1 : -1999999998 ≤ N) (hN2 : N ≤ 1999999998)
    (hs1 : 2 ≤ U → -999999999 ≤ N)
    (hs2 : U ≤ -2 → N ≤ 999999999) :
    (sumNormalize code U N).currencyCode = code ∧
    U - 1 ≤ (sumNormalize code U N).units ∧
    (sumNormalize code U N).units ≤ U + 1 ∧
    ((U ≠ 0 ∨ N = 0) → IsValid (sumNormalize code U N)) ∧
    (¬(U = 0 ∧ N ≤ -1147483649) →
      moneyValue (sumNormalize code U N) = U * nanosMod + N) ∧
    (IsValid (sumNormalize code U N) →
      moneyValue (sumNormalize code U N) = U * nanosMod + N) := by
  unfold sumNormalize moneyValue
  unfold nanosMod
  split_ifs with hC hUpos
  · -- same-sign branch: carry whole units out of nanos
    obtain ⟨heq, hq1, hq2⟩ := tdivmod_small N hN1 hN2
    have hw : wrap64 (U + Int.tdiv N 1000000000) = U + Int.tdiv N 1000000000 := by
      apply wrap64_id <;> omega
    rw [hw]
    refine ⟨rfl, ?_, ?_, ?_, ?_, ?_⟩
    · dsimp only; omega
    · dsimp only; omega
    · intro _
      exact isValid_intro (by dsimp only; omega) (by dsimp only; omega)
    · intro _; dsimp only; omega
    · intro _; dsimp only; omega
  · -- borrow branch, positive units
    have hw : wrap32 (N + 1000000000) = N + 1000000000 := by
      apply wrap32_id <;> omega
    rw [hw]
    refine ⟨rfl, ?_, ?_, ?_, ?_, ?_⟩
    · dsimp only; omega
    · dsimp only; omega
    · intro _
      exact isValid_intro (by dsimp only; omega) (by dsimp only; omega)
    · intro _; dsimp only; ring
    · intro _; dsimp only; ring
  · -- borrow branch, non-positive units (covers units = 0 and units < 0)
    by_cases hcorner : N ≤ -1147483649
    · -- the int32 subtraction wraps; the result's nanos is far out of range
      have hwrap : wrap32 (N - 1000000000) = N - 1000000000 + 4294967296 := by
        unfold wrap32; omega
      rw [hwrap]
      have hbad : ¬ IsValid (Money.mk code (U + 1) (N - 1000000000 + 4294967296)) := by
        apply not_isValid_of_nanos_large
        dsimp only; omega
      have hU0 : U = 0 := by omega
      refine ⟨rfl, by dsimp only; omega, by dsimp only; omega, ?_, ?_, ?_⟩
      · intro h; omega
      · intro h; exact absurd ⟨hU0, hcorner⟩ h
      · intro h; exact absurd h hbad
    · have hw : wrap32 (N - 1000000000) = N - 1000000000 := by
        apply wrap32_id <;> omega
      rw [hw]
      refine ⟨rfl, by dsimp only; omega, by dsimp only; omega, ?_, ?_, ?_⟩
      · intro h
        exact isValid_intro (by dsimp only; omega) (by dsimp only; omega)
      · intro _; dsimp only; ring
      · intro _; dsimp only; ring

lemma sum_spec (l r : Money) (hl : IsValid l) (hr : IsValid r)
    (hc : l.currencyCode = r.currencyCode)
    (h1 : -9223372036854775807 ≤ l.units + r.units)
    (h2 : l.units + r.units ≤ 9223372036854775806) :
    ∃ m, Sum l r = Except.ok m ∧ m.currencyCode = l.currencyCode ∧
      l.units + r.units - 1 ≤ m.units ∧ m.units ≤ l.units + r.units + 1 ∧
      ((l.units + r.units ≠ 0 ∨ l.nanos + r.nanos = 0) → IsValid m) ∧
      (¬(l.units + r.units = 0 ∧ l.nanos + r.nanos ≤ -1147483649) →
        moneyValue m = moneyValue l + moneyValue r) ∧
      (IsValid m → moneyValue m = moneyValue l + moneyValue r) := by
  have hw : wrap64 (l.units + r.units) = l.units + r.units :=
    wrap64_id (by omega) (by omega)
  have hel := isValid_elim hl
  have her := isValid_elim hr
  unfold Sum
  rw [if_neg (by tauto), if_neg (by simp [hc]), hw]
  have hspec := sumNormalize_spec l.currencyCode (l.units + r.units)
    (l.nanos + r.nanos) h1 h2 (by omega) (by omega) (by omega) (by omega)
  have hv : (l.units + r.units) * nanosMod + (l.nanos + r.nanos) =
      moneyValue l + moneyValue r := by
    unfold moneyValue nanosMod; ring
  rw [hv] at hspec
  exact ⟨_, rfl, hspec.1, hspec.2.1, hspec.2.2.1, hspec.2.2.2.1,
    hspec.2.2.2.2.1, hspec.2.2.2.2.2⟩

lemma sum_ok_elim {l r m : Money} (h : Sum l r = Except.ok m) :
    IsValid l ∧ IsValid r ∧ l.currencyCode = r.currencyCode := by
  unfold Sum at h
  split_ifs at h with hv hc
  · constructor
    · by_contra hl; exact hv (Or.inl hl)
    · refine ⟨?_, ?_⟩
      · by_contra hr; exact hv (Or.inr hr)
      · by_contra hne; exact hc hne

lemma sum_comm_all (l r : Money) : Sum l r = Sum r l := by
  unfold Sum
  by_cases hl : IsValid l <;> by_cases hr : IsValid r
  · have hv1 : ¬(¬ IsValid l ∨ ¬ IsValid r) := fun h => h.elim (· hl) (· hr)
    have hv2 : ¬(¬ IsValid r ∨ ¬ IsValid l) := fun h => h.elim (· hr) (· hl)
    by_cases hc : l.currencyCode = r.currencyCode
    · have hcc1 : ¬(l.currencyCode ≠ r.currencyCode) := fun h => h hc
      have hcc2 : ¬(r.currencyCode ≠ l.currencyCode) := fun h => h hc.symm
      rw [if_neg hv1, if_neg hv2, if_neg hcc1, if_neg hcc2, hc,
        Int.add_comm l.units, Int.add_comm l.nanos]
    · have hcc2 : r.currencyCode ≠ l.currencyCode := fun h => hc h.symm
      rw [if_neg hv1, if_neg hv2, if_pos hc, if_pos hcc2]
  · rw [if_pos (Or.inr hr), if_pos (Or.inl hr)]
  · rw [if_pos (Or.inl hl), if_pos (Or.inr hl)]
  · rw [if_pos (Or.inl hl), if_pos (Or.inr hl)]

example : Sum ⟨("USD"), 1, 500000000⟩ ⟨("USD"), 2, 400000000⟩ =
    Except.ok ⟨("USD"), 3, 900000000⟩ := by decide

example : Sum ⟨("USD"), 0, 300000000⟩ ⟨("USD"), 0, 200000000⟩ =
    Except.ok ⟨("USD"), 1, -500000000⟩ := by decide

example : Sum ⟨("USD"), 1, 0⟩ ⟨("EUR"), 1, 0⟩ =
    Except.error MoneyError.mismatchingCurrency := by decide

example : MultiplySlow ⟨("USD"), 10, 0⟩ 2 = Except.ok ⟨("USD"), 20, 0⟩ := by decide

example : Sum ⟨("USD"), 0, -750000000⟩ ⟨("USD"), 0, -750000000⟩ =
    Except.ok ⟨("USD"), 1, 1794967296⟩ := by decide


lemma prepOrderItemsM_calls (env : Env) (cur : String) :
    ∀ (items : List CartItem), ∀ c ∈ (prepOrderItemsM env items cur).1,
      isShipOrEmpty c = false := by
  intro items
  induction items with
  | nil =>
    intro c hc
    simp [prepOrderItemsM] at hc
  | cons item rest ih =>
    intro c hc
    unfold prepOrderItemsM at hc
    cases hgp : env.getProduct item.productId with
    | error e =>
      rw [hgp] at hc
      simp at hc
      subst hc
      rfl
    | ok product =>
      rw [hgp] at hc
      simp only [convertCurrencyM] at hc
      cases hcv : env.convert product.priceUsd cur with
      | error e =>
        rw [hcv] at hc
        simp at hc
        rcases hc with hc | hc <;> subst hc <;> rfl
      | ok price =>
        rw [hcv] at hc
        simp at hc
        rcases hc with hc | hc | hc
        · subst hc; rfl
        · subst hc; rfl
        · exact ih c hc

lemma prepare_calls (env : Env) (uid cur : String) (addr : Address) :
    ∀ c ∈ (prepareOrderItemsAndShippingQuoteFromCart env uid cur addr).1,
      isShipOrEmpty c = false := by
  intro c hc
  unfold prepareOrderItemsAndShippingQuoteFromCart getUserCartM at hc
  cases hgc : env.getCart uid with
  | error e =>
    rw [hgc] at hc
    simp at hc
    subst hc
    rfl
  | ok cartItems =>
    rw [hgc] at hc
    simp only at hc
    cases hpi : (prepOrderItemsM env cartItems cur).2 with
    | error e =>
      rw [hpi] at hc
      simp at hc
      rcases hc with hc | hc
      · subst hc; rfl
      · exact prepOrderItemsM_calls env cur cartItems c hc
    | ok orderItems =>
      rw [hpi] at hc
      simp only [quoteShippingM] at hc
      cases hq : env.getQuote addr cartItems with
      | error e =>
        rw [hq] at hc
        simp at hc
        rcases hc with hc | hc | hc
        · subst hc; rfl
        · exact prepOrderItemsM_calls env cur cartItems c hc
        · subst hc; rfl
      | ok shippingUSD =>
        rw [hq] at hc
        simp only [convertCurrencyM] at hc
        cases hcv : env.convert shippingUSD cur with
        | error e =>
          rw [hcv] at hc
          simp at hc
          rcases hc with hc | hc | hc | hc
          · subst hc; rfl
          · exact prepOrderItemsM_calls env cur cartItems c hc
          · subst hc; rfl
          · subst hc; rfl
        | ok shippingPrice =>
          rw [hcv] at hc
          simp at hc
          rcases hc with hc | hc | hc | hc
          · subst hc; rfl
          · exact prepOrderItemsM_calls env cur cartItems c hc
          · subst hc; rfl
          · subst hc; rfl

/-! ## Claims -/

/-- Claim C1, counterexample: two valid USD values whose units cancel to zero
while their nanos sums to a nonzero value below 10^9 make `Sum` succeed with
an *invalid* result `(units 1, nanos -500000000)`, refuting the claim's
"and which is itself valid" part. -/
theorem sum_validity_counterexample :
    IsValid ⟨("USD"), 0, 300000000⟩ ∧ IsValid ⟨("USD"), 0, 200000000⟩ ∧
    Sum ⟨("USD"), 0, 300000000⟩ ⟨("USD"), 0, 200000000⟩ =
      Except.ok ⟨("USD"), 1, -500000000⟩ ∧
    ¬ IsValid ⟨("USD"), 1, -500000000⟩ := by decide

/-- Claim C1, amended: for valid same-currency operands whose units sum stays
inside int64 (so no wrap-around), `Sum` succeeds with the shared currency
code; the exact nanos value is preserved unless the int32 borrow underflows
(only possible when the units sum is 0 and the nanos sum is at most
-1147483649); and the result is valid whenever the units sum is nonzero or
the nanos sum is zero. -/
theorem sum_exact_and_validity (l r : Money) (hl : IsValid l) (hr : IsValid r)
    (hc : l.currencyCode = r.currencyCode)
    (h1 : -9223372036854775807 ≤ l.units + r.units)
    (h2 : l.units + r.units ≤ 9223372036854775806) :
    ∃ m, Sum l r = Except.ok m ∧ m.currencyCode = l.currencyCode ∧
      (¬(l.units + r.units = 0 ∧ l.nanos + r.nanos ≤ -1147483649) →
        moneyValue m = moneyValue l + moneyValue r) ∧
      ((l.units + r.units ≠ 0 ∨ l.nanos + r.nanos = 0) → IsValid m) := by
  obtain ⟨m, hm, hcode, _, _, hvalid, hval, _⟩ := sum_spec l r hl hr hc h1 h2
  exact ⟨m, hm, hcode, hval, hvalid⟩

/-- Witness for the amended C1 theorem at `1.1 USD + 2.2 USD`. -/
theorem sum_exact_and_validity_witness :
    ∃ m, Sum ⟨("USD"), 1, 100000000⟩ ⟨("USD"), 2, 200000000⟩ = Except.ok m ∧
      m.currencyCode = ("USD") ∧
      (¬((1 : Int) + 2 = 0 ∧ (100000000 : Int) + 200000000 ≤ -1147483649) →
        moneyValue m =
          moneyValue ⟨("USD"), 1, 100000000⟩ + moneyValue ⟨("USD"), 2, 200000000⟩) ∧
      (((1 : Int) + 2 ≠ 0 ∨ (100000000 : Int) + 200000000 = 0) → IsValid m) :=
  sum_exact_and_validity ⟨("USD"), 1, 100000000⟩ ⟨("USD"), 2, 200000000⟩
    (by decide) (by decide) (by decide) (by decide) (by decide)

/-- Claim C3, counterexample: with valid same-currency `a = 1 USD`,
`b = -1 USD`, `c = 0.5 USD`, the two associations both succeed but disagree:
`Sum(a, Sum(b, c)) = (0, 500000000)` while `Sum(Sum(a, b), c) =
(1, -500000000)`, so `Sum` is not associative as claimed. -/
theorem sum_assoc_counterexample :
    IsValid ⟨("USD"), 1, 0⟩ ∧ IsValid ⟨("USD"), -1, 0⟩ ∧
    IsValid ⟨("USD"), 0, 500000000⟩ ∧
    Sum ⟨("USD"), -1, 0⟩ ⟨("USD"), 0, 500000000⟩ =
      Except.ok ⟨("USD"), 0, -500000000⟩ ∧
    Sum ⟨("USD"), 1, 0⟩ ⟨("USD"), 0, -500000000⟩ =
      Except.ok ⟨("USD"), 0, 500000000⟩ ∧
    Sum ⟨("USD"), 1, 0⟩ ⟨("USD"), -1, 0⟩ = Except.ok ⟨("USD"), 0, 0⟩ ∧
    Sum ⟨("USD"), 0, 0⟩ ⟨("USD"), 0, 500000000⟩ =
      Except.ok ⟨("USD"), 1, -500000000⟩ ∧
    (⟨("USD"), 0, 500000000⟩ : Money) ≠ ⟨("USD"), 1, -500000000⟩ := by decide

/-- Claim C3, amended: `Sum` is commutative (for all operands, so in
particular for valid same-currency ones); associativity only holds in the
weaker form that whenever both associations succeed and both final results
are valid (with unit magnitudes bounded so that int64 arithmetic cannot
wrap), the two results are equal. -/
theorem sum_comm_and_assoc (a b c : Money)
    (ha : IsValid a) (hb : IsValid b) (hc : IsValid c)
    (hab : a.currencyCode = b.currencyCode)
    (hac : a.currencyCode = c.currencyCode)
    (ha1 : -2305843009213693952 ≤ a.units) (ha2 : a.units ≤ 2305843009213693952)
    (hb1 : -2305843009213693952 ≤ b.units) (hb2 : b.units ≤ 2305843009213693952)
    (hc1 : -2305843009213693952 ≤ c.units) (hc2 : c.units ≤ 2305843009213693952) :
    Sum a b = Sum b a ∧
    (∀ s t u v, Sum b c = Except.ok s → Sum a s = Except.ok t →
      Sum a b = Except.ok u → Sum u c = Except.ok v →
      IsValid t → IsValid v → t = v) := by
  refine ⟨sum_comm_all a b, ?_⟩
  intro s t u v hs hat hu huc hvt hvv
  obtain ⟨s', hs', hscode, hsl, hsu, _, _, hsval⟩ :=
    sum_spec b c hb hc (hab.symm.trans hac) (by omega) (by omega)
  rw [hs'] at hs
  have hseq : s' = s := by injection hs
  rw [hseq] at hscode hsl hsu hsval
  obtain ⟨_, hsvalid, _⟩ := sum_ok_elim hat
  have hsvalue := hsval hsvalid
  obtain ⟨t', ht', htcode, _, _, _, _, htval⟩ :=
    sum_spec a s ha hsvalid (hab.trans hscode.symm) (by omega) (by omega)
  rw [ht'] at hat
  have hteq : t' = t := by injection hat
  rw [hteq] at htcode htval
  have htvalue : moneyValue t = moneyValue a + (moneyValue b + moneyValue c) := by
    rw [htval hvt, hsvalue]
  obtain ⟨u', hu', hucode, hul, huu, _, _, huval⟩ :=
    sum_spec a b ha hb hab (by omega) (by omega)
  rw [hu'] at hu
  have hueq : u' = u := by injection hu
  rw [hueq] at hucode hul huu huval
  obtain ⟨huvalid, _, _⟩ := sum_ok_elim huc
  have huvalue := huval huvalid
  obtain ⟨v', hv', hvcode, _, _, _, _, hvval⟩ :=
    sum_spec u c huvalid hc (hucode.trans hac) (by omega) (by omega)
  rw [hv'] at huc
  have hveq : v' = v := by injection huc
  rw [hveq] at hvcode hvval
  have hvvalue : moneyValue v = (moneyValue a + moneyValue b) + moneyValue c := by
    rw [hvval hvv, huvalue]
  exact valid_inj hvt hvv (htcode.trans (hvcode.trans hucode).symm)
    (by rw [htvalue, hvvalue]; ring)

/-- Witness for the amended C3 theorem at `a = b = c = 1 USD`, where both
associations evaluate to `3 USD`. -/
theorem sum_comm_and_assoc_witness :
    (Sum ⟨("USD"), 1, 0⟩ ⟨("USD"), 1, 0⟩ = Sum ⟨("USD"), 1, 0⟩ ⟨("USD"), 1, 0⟩) ∧
    (⟨("USD"), 3, 0⟩ : Money) = ⟨("USD"), 3, 0⟩ :=
  have h := sum_comm_and_assoc ⟨("USD"), 1, 0⟩ ⟨("USD"), 1, 0⟩ ⟨("USD"), 1, 0⟩
    (by decide) (by decide) (by decide) (by decide) (by decide) (by decide)
    (by decide) (by decide) (by decide) (by decide) (by decide)
  ⟨h.1, h.2 ⟨("USD"), 2, 0⟩ ⟨("USD"), 3, 0⟩ ⟨("USD"), 2, 0⟩ ⟨("USD"), 3, 0⟩
    (by decide) (by decide) (by decide) (by decide) (by decide) (by decide)⟩

/-- Claim C4, counterexample: with an invalid left operand and differing
currency codes, `Sum` reports `InvalidValue`, not `MismatchingCurrency` —
the validity check precedes the currency check, so the claim's "regardless
of whether either operand is valid" is false. -/
theorem sum_mismatch_invalid_counterexample :
    (⟨("USD"), 1, -5⟩ : Money).currencyCode ≠
      (⟨("EUR"), 0, 0⟩ : Money).currencyCode ∧
    ¬ IsValid ⟨("USD"), 1, -5⟩ ∧
    Sum ⟨("USD"), 1, -5⟩ ⟨("EUR"), 0, 0⟩ = Except.error MoneyError.invalidValue ∧
    Sum ⟨("USD"), 1, -5⟩ ⟨("EUR"), 0, 0⟩ ≠
      Except.error MoneyError.mismatchingCurrency := by decide

/-- Claim C4, amended: for *valid* operands with differing currency codes,
`Sum` fails with the `MismatchingCurrency` error; when an operand is invalid
the `InvalidValue` error takes precedence. -/
theorem sum_mismatchingCurrency_of_valid (l r : Money)
    (hl : IsValid l) (hr : IsValid r)
    (hc : l.currencyCode ≠ r.currencyCode) :
    Sum l r = Except.error MoneyError.mismatchingCurrency := by
  unfold Sum
  rw [if_neg (fun h => h.elim (· hl) (· hr)), if_pos hc]

/-- Witness for the amended C4 theorem at `1 USD + 1 EUR`. -/
theorem sum_mismatchingCurrency_of_valid_witness :
    Sum ⟨("USD"), 1, 0⟩ ⟨("EUR"), 1, 0⟩ =
      Except.error MoneyError.mismatchingCurrency :=
  sum_mismatchingCurrency_of_valid ⟨("USD"), 1, 0⟩ ⟨("EUR"), 1, 0⟩
    (by decide) (by decide) (by decide)

/-- Claim C9: refuted by the code — `IsPositive` (and `IsNegative`) return
true for invalid values with zero units and out-of-range nanos, because the
`(units == 0 && nanos > 0)` disjunct bypasses the `IsValid` conjunct; this
contradicts the functions' own doc comments ("valid and is positive"). -/
theorem isPositive_without_validity :
    IsPositive ⟨("USD"), 0, 2000000000⟩ ∧ ¬ IsValid ⟨("USD"), 0, 2000000000⟩ ∧
    IsNegative ⟨("USD"), 0, -2000000000⟩ ∧
    ¬ IsValid ⟨("USD"), 0, -2000000000⟩ := by decide

/-- Claim C2: when the preparation and total computation succeed but the
Payment.Charge call fails, `PlaceOrder` returns the payment-step error and its
call trace contains no `Shipping.ShipOrder` and no `Cart.EmptyCart` call —
charging strictly precedes shipping and cart clearing. -/
theorem placeOrder_chargeFail_no_ship_no_emptyCart (env : Env)
    (req : PlaceOrderRequest) (oid : String) (prep : OrderPrep) (total : Money)
    (e : String)
    (h0 : env.newOrderId = Except.ok oid)
    (h1 : (prepareOrderItemsAndShippingQuoteFromCart env req.userId
      req.userCurrency req.address).2 = Except.ok prep)
    (h2 : computeTotal req.userCurrency prep.shippingCostLocalized
      prep.orderItems = Except.ok total)
    (h3 : env.charge total req.creditCard = Except.error e) :
    (PlaceOrder env req).2 = Except.error (OrderError.paymentFailure
      ("failed to charge card: " ++ ("could not charge the card: " ++ e))) ∧
    (∀ a items, Call.shipOrder a items ∉ (PlaceOrder env req).1) ∧
    (∀ uid, Call.emptyCart uid ∉ (PlaceOrder env req).1) := by
  have hPO : PlaceOrder env req =
      ((prepareOrderItemsAndShippingQuoteFromCart env req.userId
        req.userCurrency req.address).1 ++ [Call.charge total req.creditCard],
        Except.error (OrderError.paymentFailure
          ("failed to charge card: " ++ ("could not charge the card: " ++ e)))) := by
    simp only [PlaceOrder, h0, h1, h2, chargeCardM, h3]
  rw [hPO]
  refine ⟨rfl, ?_, ?_⟩
  · intro a items hmem
    rcases List.mem_append.mp hmem with h | h
    · have := prepare_calls env req.userId req.userCurrency req.address _ h
      simp [isShipOrEmpty] at this
    · simp at h
  · intro uid hmem
    rcases List.mem_append.mp hmem with h | h
    · have := prepare_calls env req.userId req.userCurrency req.address _ h
      simp [isShipOrEmpty] at this
    · simp at h

/-- Witness for the C2 theorem: a concrete environment whose payment service
declines the charge. -/
theorem placeOrder_chargeFail_no_ship_no_emptyCart_witness :
    (PlaceOrder envChargeFail reqUSD).2 = Except.error (OrderError.paymentFailure
      ("failed to charge card: " ++
        ("could not charge the card: " ++ ("card declined")))) ∧
    (∀ a items, Call.shipOrder a items ∉ (PlaceOrder envChargeFail reqUSD).1) ∧
    (∀ uid, Call.emptyCart uid ∉ (PlaceOrder envChargeFail reqUSD).1) :=
  placeOrder_chargeFail_no_ship_no_emptyCart envChargeFail reqUSD ("order-1")
    ⟨[], [], ⟨("USD"), 8, 990000000⟩⟩ ⟨("USD"), 8, 990000000⟩ ("card declined")
    (by decide) (by decide) (by decide) (by decide)

/-- Claim C5, counterexample: a valid Visa card expiring in the *current*
month (October 2026, with "now" being midnight of 2026-10-11) is rejected as
expired even though its expiration (year, month) is not strictly before the
current date — `time.Date(year, month, 0, ...)` is the day before the first
of the expiration month, which lies in the past as soon as the expiration
month has begun. -/
theorem charge_currentMonth_counterexample :
    validateAndCharge ⟨("USD"), 30, 0⟩ ⟨("4111-1111-1111-1111"), 123, 2026, 10⟩
      (goDateDays 2026 10 11 * nsPerDay) ("tx-1") =
      Except.error ChargeError.expiredCreditCard ∧
    ¬((2026 : Int) < 2026 ∨ ((2026 : Int) = 2026 ∧ (10 : Int) < 10)) := by decide

/-- Claim C5, amended: for a card passing the number and CVV checks,
`validateAndCharge` reports `ExpiredCard` exactly when midnight of the day
before the first of the expiration month (`time.Date(year, month, 0)`) is
strictly before the current instant — so cards expiring in the current month
are already rejected — and otherwise succeeds, returning the freshly
generated (non-empty) transaction id. -/
theorem validateAndCharge_expiry_boundary (amount : Money)
    (card : CreditCardInfo) (nowNs : Int) (newTxId : String)
    (hlen : ¬ (stripHyphens card.creditCardNumber).length < 4)
    (hfirst : (stripHyphens card.creditCardNumber).data.head? = some '4' ∨
      (stripHyphens card.creditCardNumber).data.head? = some '5')
    (hcvv : ¬(card.creditCardCvv < 100 ∨ 9999 < card.creditCardCvv))
    (htx : newTxId ≠ ("")) :
    (validateAndCharge amount card nowNs newTxId =
        Except.error ChargeError.expiredCreditCard ↔
      expiryInstant card.creditCardExpirationYear
        card.creditCardExpirationMonth < nowNs) ∧
    (¬ expiryInstant card.creditCardExpirationYear
        card.creditCardExpirationMonth < nowNs →
      validateAndCharge amount card nowNs newTxId = Except.ok newTxId ∧
        newTxId ≠ ("")) := by
  unfold validateAndCharge
  rw [if_neg hlen, if_pos hfirst, if_neg hcvv]
  by_cases hexp : expiryInstant card.creditCardExpirationYear
      card.creditCardExpirationMonth < nowNs
  · rw [if_pos hexp]
    exact ⟨⟨fun _ => hexp, fun _ => rfl⟩, fun h => absurd hexp h⟩
  · rw [if_neg hexp]
    exact ⟨⟨fun h => Except.noConfusion h, fun h => absurd h hexp⟩,
      fun _ => ⟨rfl, htx⟩⟩

/-- Witness for the amended C5 theorem: a Visa card expiring 01/2030 checked
on 2026-10-11. -/
theorem validateAndCharge_expiry_boundary_witness :
    (validateAndCharge ⟨("USD"), 30, 0⟩ ⟨("4111-1111-1111-1111"), 123, 2030, 1⟩
        (goDateDays 2026 10 11 * nsPerDay) ("tx-1") =
        Except.error ChargeError.expiredCreditCard ↔
      expiryInstant 2030 1 < goDateDays 2026 10 11 * nsPerDay) ∧
    (¬ expiryInstant 2030 1 < goDateDays 2026 10 11 * nsPerDay →
      validateAndCharge ⟨("USD"), 30, 0⟩ ⟨("4111-1111-1111-1111"), 123, 2030, 1⟩
        (goDateDays 2026 10 11 * nsPerDay) ("tx-1") = Except.ok ("tx-1") ∧
        ("tx-1") ≠ ("")) :=
  validateAndCharge_expiry_boundary ⟨("USD"), 30, 0⟩
    ⟨("4111-1111-1111-1111"), 123, 2030, 1⟩ (goDateDays 2026 10 11 * nsPerDay)
    ("tx-1") (by decide) (by decide) (by decide) (by decide)

/-- Claim C7: in USD, with one cart item of quantity 2 priced 10.00 USD after
localization and a localized shipping quote of 8.99 USD, the total handed to
the Payment.Charge call is exactly `(units 28, nanos 990000000, USD)`. -/
theorem placeOrder_concrete_total (env : Env) (req : PlaceOrderRequest)
    (oid : String) (item : CartItem) (prod : Product) (quote : Money)
    (hcur : req.userCurrency = ("USD"))
    (h0 : env.newOrderId = Except.ok oid)
    (hcart : env.getCart req.userId = Except.ok [item])
    (hqty : item.quantity = 2)
    (hprod : env.getProduct item.productId = Except.ok prod)
    (hprice : env.convert prod.priceUsd ("USD") = Except.ok ⟨("USD"), 10, 0⟩)
    (hquote : env.getQuote req.address [item] = Except.ok quote)
    (hship : env.convert quote ("USD") = Except.ok ⟨("USD"), 8, 990000000⟩) :
    Call.charge ⟨("USD"), 28, 990000000⟩ req.creditCard ∈ (PlaceOrder env req).1 := by
  have hprep : prepareOrderItemsAndShippingQuoteFromCart env req.userId
      req.userCurrency req.address =
      ([Call.getCart req.userId, Call.getProduct item.productId,
        Call.convert prod.priceUsd ("USD"), Call.getQuote req.address [item],
        Call.convert quote ("USD")],
        Except.ok ⟨[⟨item, ⟨("USD"), 10, 0⟩⟩], [item], ⟨("USD"), 8, 990000000⟩⟩) := by
    rw [hcur]
    simp only [prepareOrderItemsAndShippingQuoteFromCart, getUserCartM, hcart,
      prepOrderItemsM, hprod, convertCurrencyM, hprice, quoteShippingM, hquote,
      hship]
    rfl
  have hms : MultiplySlow ⟨("USD"), 10, 0⟩ (toUInt32 2) =
      Except.ok ⟨("USD"), 20, 0⟩ := by decide
  have hsum1 : Sum ⟨("USD"), 0, 0⟩ ⟨("USD"), 8, 990000000⟩ =
      Except.ok ⟨("USD"), 8, 990000000⟩ := by decide
  have hsum2 : Sum ⟨("USD"), 8, 990000000⟩ ⟨("USD"), 20, 0⟩ =
      Except.ok ⟨("USD"), 28, 990000000⟩ := by decide
  have htot : computeTotal req.userCurrency ⟨("USD"), 8, 990000000⟩
      [⟨item, ⟨("USD"), 10, 0⟩⟩] = Except.ok ⟨("USD"), 28, 990000000⟩ := by
    rw [hcur]
    simp only [computeTotal, hsum1, addOrderItems, hqty, hms, hsum2]
  cases hch : env.charge ⟨("USD"), 28, 990000000⟩ req.creditCard with
  | error e =>
    simp [PlaceOrder, h0, hprep, htot, chargeCardM, hch]
  | ok tx =>
    cases hso : env.shipOrder req.address [item] with
    | error e2 =>
      simp [PlaceOrder, h0, hprep, htot, chargeCardM, hch, shipOrderM, hso]
    | ok tr =>
      simp [PlaceOrder, h0, hprep, htot, chargeCardM, hch, shipOrderM, hso,
        emptyUserCartM, sendOrderConfirmationM]

/-- Witness for the C7 theorem: the one-item environment. -/
theorem placeOrder_concrete_total_witness :
    Call.charge ⟨("USD"), 28, 990000000⟩ reqUSD.creditCard ∈
      (PlaceOrder envOneItem reqUSD).1 :=
  placeOrder_concrete_total envOneItem reqUSD ("order-7") ⟨("P1"), 2⟩
    ⟨("P1"), ⟨("USD"), 10, 0⟩⟩ ⟨("USD"), 8, 990000000⟩
    (by decide) (by decide) (by decide) (by decide) (by decide) (by decide)
    (by decide) (by decide)

/-- Claim C8: once the charge and the shipment have succeeded, the outcomes
of the best-effort Cart.EmptyCart and Email.SendOrderConfirmation calls are
irrelevant (the environment leaves them arbitrary): `PlaceOrder` returns,
with no error, the complete order result with the generated order id, the
tracking id, the localized shipping cost, the shipping address, and the
priced items. -/
theorem placeOrder_cleanup_failures_ignored (env : Env)
    (req : PlaceOrderRequest) (oid : String) (prep : OrderPrep) (total : Money)
    (tx trackingId : String)
    (h0 : env.newOrderId = Except.ok oid)
    (h1 : (prepareOrderItemsAndShippingQuoteFromCart env req.userId
      req.userCurrency req.address).2 = Except.ok prep)
    (h2 : computeTotal req.userCurrency prep.shippingCostLocalized
      prep.orderItems = Except.ok total)
    (h3 : env.charge total req.creditCard = Except.ok tx)
    (h4 : env.shipOrder req.address prep.cartItems = Except.ok trackingId) :
    (PlaceOrder env req).2 = Except.ok ⟨⟨oid, trackingId,
      prep.shippingCostLocalized, req.address, prep.orderItems⟩⟩ := by
  simp only [PlaceOrder, h0, h1, h2, chargeCardM, h3, shipOrderM, h4,
    emptyUserCartM, sendOrderConfirmationM]

/-- Witness for the C8 theorem: charge and shipment succeed while both
cleanup steps fail, yet the full order result is returned. -/
theorem placeOrder_cleanup_failures_ignored_witness :
    (PlaceOrder envCleanupFail reqUSD).2 = Except.ok ⟨⟨("order-9"), ("track-9"),
      ⟨("USD"), 8, 990000000⟩, reqUSD.address, []⟩⟩ :=
  placeOrder_cleanup_failures_ignored envCleanupFail reqUSD ("order-9")
    ⟨[], [], ⟨("USD"), 8, 990000000⟩⟩ ⟨("USD"), 8, 990000000⟩ ("tx-9")
    ("track-9") (by decide) (by decide) (by decide) (by decide) (by decide)

/-- Claim C10: `MultiplySlow(m, 0)` returns the field-by-field copy of `m`
itself — identical to `MultiplySlow(m, 1)` — since the loop `for n > 1` never
runs; a multiplier of zero does not produce a zero amount. -/
theorem multiplySlow_zero_eq_self (m : Money) :
    MultiplySlow m 0 = Except.ok m ∧ MultiplySlow m 0 = MultiplySlow m 1 :=
  ⟨rfl, rfl⟩

end Boutique
